import Mathlib

/-!
# Spec3D — verification of the audio-visualizer core

Shallow embedding of the Spec3D repository's visualization/audio logic:
the spatial waveform builder and playback mapper (`WaveformModel3D.ts`),
the analyser configuration and playback transport (`AudioController` in
`FrequencyGraph.ts`), the average-sampling bar binner and the pointer
scrubbing handlers (main entry file), and the circular bar visualizer
(`Visualizer.ts`).

JavaScript numbers are idealized as exact rationals (`ℚ`); typed-array and
array reads out of range (`arr[i] || 0`) are embedded as a lookup with
default `0`.
-/

namespace Spec3D

/-- A decoded audio buffer (`AudioBuffer`): sample data of the first channel,
sample count, sample rate and duration, immutable once loaded. -/
structure AudioTrack where
  sampleCount : ℕ
  data : ℕ → ℚ
  sampleRate : ℚ
  duration : ℚ

/-- A 3D point (`THREE.Vector3`) with rational coordinates. -/
structure Point3 where
  x : ℚ
  y : ℚ
  z : ℚ
deriving DecidableEq

/-- The index sequence of the loop `for (let i = 0; i < n; i += step)` in
`generateDynamicWaveform`.  At every call site `step = max 1 _` is positive;
the `0 < step` guard makes the recursion total. -/
def stridePoints (n step i : ℕ) : List ℕ :=
  if h : 0 < step ∧ i < n then i :: stridePoints n step (i + step) else []
termination_by n - i
decreasing_by omega

/-- The constant `targetPoints = 8000` in `generateDynamicWaveform`. -/
def targetPoints : ℕ := 8000

/-- The stride `step = Math.max(1, Math.floor(channelData.length / targetPoints))`. -/
def waveformStep (n : ℕ) : ℕ := max 1 (n / targetPoints)

/-- The point list built by `WaveformModel3D.generateDynamicWaveform`:
walk the first channel at stride `waveformStep`; for sample index `i`,
`x = (i / sampleCount) * length - length / 2` with `length = 60 * spread`,
`y = sample * 6`, `z = 0`. -/
def generateDynamicWaveform (track : AudioTrack) (spreadFactor : ℚ) : List Point3 :=
  let n := track.sampleCount
  let step := waveformStep n
  let length : ℚ := 60 * spreadFactor
  (stridePoints n step 0).map (fun (i : ℕ) =>
    { x := ((i : ℚ) / (n : ℚ)) * length - length / 2
      y := track.data i * 6
      z := 0 })

lemma ceil_div_step (step d : ℕ) (hstep : 0 < step) (hd : 1 ≤ d) :
    (d - step + step - 1) / step + 1 = (d + step - 1) / step := by
  rcases le_or_lt d step with hle | hlt
  · have e1 : d - step + step - 1 = step - 1 := by omega
    have e2 : d + step - 1 = (d - 1) + step := by omega
    rw [e1, e2, Nat.add_div_right _ hstep,
      Nat.div_eq_of_lt (by omega), Nat.div_eq_of_lt (by omega)]
  · have e1 : d - step + step - 1 = d - 1 := by omega
    have e2 : d + step - 1 = (d - 1) + step := by omega
    rw [e1, e2, Nat.add_div_right _ hstep]

lemma stridePoints_length_aux (n step : ℕ) (hstep : 0 < step) :
    ∀ fuel i, n - i ≤ fuel →
      (stridePoints n step i).length = (n - i + step - 1) / step := by
  intro fuel
  induction fuel with
  | zero =>
    intro i hi
    have hin : ¬ (0 < step ∧ i < n) := by omega
    rw [stridePoints, dif_neg hin]
    have h0 : n - i = 0 := by omega
    simp [h0, Nat.div_eq_of_lt (by omega : step - 1 < step)]
  | succ m ih =>
    intro i hi
    by_cases hin : i < n
    · rw [stridePoints, dif_pos ⟨hstep, hin⟩]
      simp only [List.length_cons]
      rw [ih (i + step) (by omega)]
      have h1 : n - (i + step) = (n - i) - step := by omega
      rw [h1]
      exact ceil_div_step step (n - i) hstep (by omega)
    · have hni : ¬ (0 < step ∧ i < n) := by omega
      rw [stridePoints, dif_neg hni]
      have h0 : n - i = 0 := by omega
      simp [h0, Nat.div_eq_of_lt (by omega : step - 1 < step)]

/-- Closed form for the number of loop iterations: `⌈n / step⌉`. -/
lemma stridePoints_length (n step : ℕ) (hstep : 0 < step) :
    (stridePoints n step 0).length = (n + step - 1) / step := by
  have h := stridePoints_length_aux n step hstep n 0 (by omega)
  simpa using h

lemma waveformStep_pos (n : ℕ) : 0 < waveformStep n :=
  Nat.lt_of_lt_of_le Nat.zero_lt_one (le_max_left _ _)

lemma generateDynamicWaveform_length (track : AudioTrack) (spread : ℚ) :
    (generateDynamicWaveform track spread).length
      = (track.sampleCount + waveformStep track.sampleCount - 1)
          / waveformStep track.sampleCount := by
  unfold generateDynamicWaveform
  rw [List.length_map]
  exact stridePoints_length _ _ (waveformStep_pos _)

lemma waveCount_le (n : ℕ) : (n + waveformStep n - 1) / waveformStep n ≤ 15999 := by
  unfold waveformStep targetPoints
  rcases Nat.lt_or_ge n 8000 with h | h
  · have h0 : n / 8000 = 0 := Nat.div_eq_of_lt h
    have hm : max 1 (n / 8000) = 1 := by rw [h0]; decide
    rw [hm, Nat.div_one]
    omega
  · have hq : 0 < n / 8000 := Nat.div_pos h (by norm_num)
    rw [max_eq_right hq]
    have h16 : (n + n / 8000 - 1) / (n / 8000) < 16000 := by
      rw [Nat.div_lt_iff_lt_mul hq]
      omega
    omega

/-- A 10-second track at sample rate 44100: 441000 samples. -/
def track10s : AudioTrack :=
  { sampleCount := 441000, data := fun _ => 0, sampleRate := 44100, duration := 10 }

lemma track10s_count : (generateDynamicWaveform track10s 1).length = 8019 := by
  have hstep : waveformStep 441000 = 55 := by decide
  have h := generateDynamicWaveform_length track10s 1
  have hcount : (441000 + waveformStep 441000 - 1) / waveformStep 441000 = 8019 := by
    rw [hstep]
  have hn : track10s.sampleCount = 441000 := rfl
  rw [hn] at h
  rw [h, hcount]

/-- C1, counterexample: for the 10-second 44.1 kHz track (441000 samples) the
stride is `floor(441000 / 8000) = 55` and the loop emits
`⌈441000 / 55⌉ = 8019` points, so the claimed cap of 8000 points is exceeded. -/
theorem C1_counterexample :
    (generateDynamicWaveform track10s 1).length = 8019 ∧
      ¬ (generateDynamicWaveform track10s 1).length ≤ 8000 := by
  rw [track10s_count]
  omega

/-- C1 (amended): the spatial waveform built by `generateDynamicWaveform` has
exactly `⌈sampleCount / stride⌉` points where
`stride = max(1, floor(sampleCount / 8000))`; this is at most 15999 (not 8000),
and for a 10-second track at sample rate 44100 (441000 samples) it is
8019 points. -/
theorem C1_point_count :
    (∀ (track : AudioTrack) (spread : ℚ),
        (generateDynamicWaveform track spread).length
          = (track.sampleCount + waveformStep track.sampleCount - 1)
              / waveformStep track.sampleCount
        ∧ (generateDynamicWaveform track spread).length ≤ 15999)
    ∧ (generateDynamicWaveform track10s 1).length = 8019 := by
  refine ⟨fun track spread => ⟨generateDynamicWaveform_length track spread, ?_⟩, ?_⟩
  · rw [generateDynamicWaveform_length track spread]
    exact waveCount_le _
  · exact track10s_count

/-! ## WaveformModel3D playback mapping (C2, C4) -/

/-- Mutable state of `WaveformModel3D` relevant to playback and scrubbing:
the loaded buffer, the spread factor, the progress-indicator mesh position,
the playing flag, and whether the invisible hit-area mesh exists. -/
structure WaveformModel3D where
  audioBuffer : Option AudioTrack
  spreadFactor : ℚ
  progressIndicator : Option Point3
  isPlaying : Bool
  hitArea : Bool

/-- Embeds `channelData[sampleIndex] || 0`: an out-of-range read gives `undefined`,
which `|| 0` turns into `0` (a stored `0` sample also yields `0`). -/
def sampleAt (track : AudioTrack) (idx : ℤ) : ℚ :=
  if 0 ≤ idx ∧ idx < (track.sampleCount : ℤ) then track.data idx.toNat else 0

/-- Embeds `WaveformModel3D.updatePlayback`: guards on a loaded buffer and an existing
progress indicator; `progress = currentTime / duration`; the marker moves to
`x = progress * 60 - 30` (the code uses the fixed base length 60 here, not
`60 * spreadFactor`) and `y = 6 * channelData[floor(progress * sampleCount)]`. -/
def updatePlayback (st : WaveformModel3D) (currentTime : ℚ) (isPlaying : Bool) :
    WaveformModel3D :=
  match st.audioBuffer, st.progressIndicator with
  | some buf, some pos =>
    let progress := currentTime / buf.duration
    let length : ℚ := 60
    let x := progress * length - length / 2
    let sampleIndex : ℤ := ⌊progress * (buf.sampleCount : ℚ)⌋
    let y := sampleAt buf sampleIndex * 6
    { st with isPlaying := isPlaying, progressIndicator := some ⟨x, y, pos.z⟩ }
  | _, _ => st

/-- Embeds `WaveformModel3D.calculateProgressFromPoint`: maps a local-frame point to
`(x + length/2) / length` with `length = 60 * spreadFactor`, clamped to
`[0, 1]` by `Math.min(Math.max(progress, 0), 1)`. -/
def calculateProgressFromPoint (st : WaveformModel3D) (point : Point3) : ℚ :=
  let length := 60 * st.spreadFactor
  min (max ((point.x + length / 2) / length) 0) 1

/-- The spec's §4.4 forward formula for the marker's x-coordinate:
`progress * length - length / 2`. -/
def specMarkerX (progress length : ℚ) : ℚ := progress * length - length / 2

/-- A loaded 120-second track. -/
def track120 : AudioTrack :=
  { sampleCount := 1000, data := fun _ => 0, sampleRate := 44100, duration := 120 }

/-- Model state with `track120` loaded and spread factor 1. -/
def st120 : WaveformModel3D :=
  { audioBuffer := some track120, spreadFactor := 1,
    progressIndicator := some ⟨-30, 0, 0⟩, isPlaying := false, hitArea := true }

/-- Model state with `track120` loaded and spread factor 2. -/
def stSpread2 : WaveformModel3D :=
  { audioBuffer := some track120, spreadFactor := 2,
    progressIndicator := some ⟨-30, 0, 0⟩, isPlaying := false, hitArea := true }

/-- C2 (amended): for every loaded track and time, `updatePlayback` places the
marker at `x = progress * 60 - 30` using the FIXED base length 60 — not
`60 * spreadFactor` as claimed — and at `y = 6 *` the raw sample at index
`floor(progress * sampleCount)` (0 out of range); for `duration = 120`,
`currentTime = 60` the x-coordinate is 0. -/
theorem C2_marker_position (st : WaveformModel3D) (buf : AudioTrack) (pos : Point3)
    (t : ℚ) (b : Bool)
    (h1 : st.audioBuffer = some buf) (h2 : st.progressIndicator = some pos) :
    (updatePlayback st t b).progressIndicator =
      some ⟨specMarkerX (t / buf.duration) 60,
            sampleAt buf ⌊(t / buf.duration) * (buf.sampleCount : ℚ)⌋ * 6, pos.z⟩
    ∧ (buf.duration = 120 → t = 60 → specMarkerX (t / buf.duration) 60 = 0) := by
  constructor
  · simp only [updatePlayback, h1, h2, specMarkerX]
  · intro hdur ht
    rw [hdur, ht]
    norm_num [specMarkerX]

/-- Witness for C2: with `track120` loaded (duration 120) and `t = 60`, the
marker lands at the spatial center `⟨0, 0, 0⟩`. -/
theorem C2_marker_position_witness :
    (updatePlayback st120 60 true).progressIndicator = some ⟨0, 0, 0⟩ := by
  have h := C2_marker_position st120 track120 ⟨-30, 0, 0⟩ 60 true rfl rfl
  rw [h.1]
  simp only [specMarkerX, sampleAt, track120]
  norm_num

/-- C2, counterexample: with spread factor 2 and `t = duration = 120`, the code
places the marker at `x = 30`, while the claim's formula
`progress * (60 * spread) - (60 * spread) / 2` predicts `x = 60`. -/
theorem C2_counterexample :
    ((updatePlayback stSpread2 120 true).progressIndicator.map Point3.x) = some 30
    ∧ specMarkerX (120 / track120.duration) (60 * stSpread2.spreadFactor) = 60
    ∧ (30 : ℚ) ≠ 60 := by
  refine ⟨?_, ?_, by norm_num⟩
  · simp only [updatePlayback, stSpread2, track120, sampleAt, Option.map]
    norm_num
  · simp only [specMarkerX, stSpread2, track120]
    norm_num

/-- C4 (amended): the round trip progress → marker position → progress is the
identity on `[0, 1]` when the spread factor is 1.0 (for other spread factors
the two mappings use different lengths and the round trip fails, see the
counterexample). -/
theorem C4_round_trip (st : WaveformModel3D) (buf : AudioTrack) (pos : Point3)
    (p : ℚ) (b : Bool)
    (h1 : st.audioBuffer = some buf) (h2 : st.progressIndicator = some pos)
    (hs : st.spreadFactor = 1) (hd : 0 < buf.duration)
    (hp0 : 0 ≤ p) (hp1 : p ≤ 1) (m : Point3)
    (hm : (updatePlayback st (p * buf.duration) b).progressIndicator = some m) :
    calculateProgressFromPoint (updatePlayback st (p * buf.duration) b) m = p := by
  have hd' : buf.duration ≠ 0 := ne_of_gt hd
  have hx : p * buf.duration / buf.duration = p := by
    field_simp
  have hup : updatePlayback st (p * buf.duration) b =
      { st with
          isPlaying := b
          progressIndicator :=
            some (Point3.mk (p * 60 - 30) (sampleAt buf ⌊p * (buf.sampleCount : ℚ)⌋ * 6) pos.z) } := by
    simp only [updatePlayback, h1, h2, hx]
    norm_num
  rw [hup] at hm
  simp only [Option.some.injEq] at hm
  subst hm
  rw [hup]
  simp only [calculateProgressFromPoint, hs]
  have harith : (p * 60 - 30 + 60 * 1 / 2) / (60 * 1) = p := by
    ring_nf
  rw [harith, max_eq_left hp0, min_eq_left hp1]

/-- Witness for C4: for `p = 1/4` on `st120` (spread 1, duration 120), the
marker lands at `⟨-15, 0, 0⟩` and mapping back yields `1/4`. -/
theorem C4_round_trip_witness :
    calculateProgressFromPoint
      (updatePlayback st120 ((1 / 4) * track120.duration) false) ⟨-15, 0, 0⟩ = 1 / 4 :=
  C4_round_trip st120 track120 ⟨-30, 0, 0⟩ (1 / 4) false rfl rfl rfl
    (by norm_num [track120]) (by norm_num) (by norm_num) ⟨-15, 0, 0⟩
    (by simp only [updatePlayback, st120, track120, sampleAt]; norm_num)

/-- C4, counterexample: with spread factor 2, progress `p = 0` maps to marker
x `-30`, and the inverse mapping (which uses length `60 * 2 = 120`) returns
`1/4`, not `0` — far beyond floating-point tolerance. -/
theorem C4_counterexample :
    (updatePlayback stSpread2 ((0 : ℚ) * track120.duration) false).progressIndicator.map
        (calculateProgressFromPoint
          (updatePlayback stSpread2 ((0 : ℚ) * track120.duration) false)) = some (1 / 4)
    ∧ ((1 : ℚ) / 4) ≠ 0 := by
  constructor
  · simp only [updatePlayback, stSpread2, track120, sampleAt, calculateProgressFromPoint,
      Option.map]
    norm_num [min_def, max_def]
  · norm_num

/-! ## Average-sampling bar binner (C3) -/

/-- The accumulation loop `for (let i = startBin; i < endBin; i++)
sum += frequencyData[i]`, over the index interval `[s, e)`. -/
def sumRange (data : List ℚ) (s e : ℕ) : ℚ :=
  ((List.range' s (e - s)).map (fun j => data.getD j 0)).sum

/-- One bucket of the average-sampling bar binner in the render loop:
`startBin = floor(i / barCount * totalBins)` and
`endBin = floor((i + 1) / barCount * totalBins)` (the exact rational floors,
embedded as natural division); the value averages `[startBin, endBin)` when
`endBin > startBin` and otherwise reads the nearest bin
(`frequencyData[startBin] || 0`). -/
def reduceBucket (data : List ℚ) (barCount i : ℕ) : ℚ :=
  let totalBins := data.length
  let startBin := i * totalBins / barCount
  let endBin := (i + 1) * totalBins / barCount
  if startBin < endBin then
    sumRange data startBin endBin / ((endBin - startBin : ℕ) : ℚ)
  else data.getD startBin 0

/-- The spec's §4.2 bucket rule stated in its own words: floors of rational
ratios and an arithmetic mean over the bin interval. -/
def specBucket (data : List ℚ) (barCount i : ℕ) : ℚ :=
  let L := data.length
  let startBin := ⌊(i : ℚ) / (barCount : ℚ) * (L : ℚ)⌋₊
  let endBin := ⌊((i + 1 : ℕ) : ℚ) / (barCount : ℚ) * (L : ℚ)⌋₊
  if startBin < endBin then
    (∑ j ∈ Finset.Ico startBin endBin, data.getD j 0) / ((endBin - startBin : ℕ) : ℚ)
  else data.getD startBin 0

lemma floor_ratio_eq_div (i c L : ℕ) : ⌊(i : ℚ) / (c : ℚ) * (L : ℚ)⌋₊ = i * L / c := by
  rw [div_mul_eq_mul_div]
  rw [show ((i : ℚ) * (L : ℚ)) = ((i * L : ℕ) : ℚ) by push_cast; ring]
  rw [Nat.floor_div_nat, Nat.floor_natCast]

lemma list_range_sum (g : ℕ → ℚ) (n : ℕ) :
    ((List.range n).map g).sum = ∑ j ∈ Finset.range n, g j := by
  induction n with
  | zero => simp
  | succ n ih =>
    rw [List.range_succ, List.map_append, List.sum_append, Finset.sum_range_succ, ih]
    simp

lemma sumRange_eq_sum_Ico (data : List ℚ) (s e : ℕ) :
    sumRange data s e = ∑ j ∈ Finset.Ico s e, data.getD j 0 := by
  unfold sumRange
  rw [List.range'_eq_map_range, List.map_map, list_range_sum, Finset.sum_Ico_eq_sum_range]
  simp [Function.comp]

/-- C3: bucket `i` is the arithmetic mean of `snapshot[startBin..endBin)` when
`endBin > startBin`, and `snapshot[startBin]` (0 out of range) otherwise, with
the spec's floor formulas; for `sourceLength = 256, targetBarCount = 64` every
bucket is the mean of the 4 contiguous bins `[4i, 4i+4)` (no gaps or
overlaps), and for `sourceLength = 8, targetBarCount = 16` bucket `i` equals
`snapshot[i / 2]`. -/
theorem C3_bar_binner :
    (∀ (data : List ℚ) (count i : ℕ), specBucket data count i = reduceBucket data count i)
    ∧ (∀ (data : List ℚ), data.length = 256 → ∀ i, i < 64 →
        reduceBucket data 64 i =
          (data.getD (4 * i) 0 + data.getD (4 * i + 1) 0 + data.getD (4 * i + 2) 0
            + data.getD (4 * i + 3) 0) / 4)
    ∧ (∀ (data : List ℚ), data.length = 8 → ∀ i, i < 16 →
        reduceBucket data 16 i = data.getD (i / 2) 0) := by
  refine ⟨?_, ?_, ?_⟩
  · intro data count i
    simp only [specBucket, reduceBucket, floor_ratio_eq_div, sumRange_eq_sum_Ico]
  · intro data hlen i hi
    have hs : i * 256 / 64 = 4 * i := by omega
    have he : (i + 1) * 256 / 64 = 4 * i + 4 := by omega
    have hr : List.range' (4 * i) 4 = [4 * i, 4 * i + 1, 4 * i + 2, 4 * i + 3] := by
      norm_num [List.range']
    simp only [reduceBucket, hlen, hs, he, sumRange]
    rw [if_pos (by omega)]
    rw [show (4 * i + 4 - 4 * i) = 4 by omega, hr]
    simp only [List.map_cons, List.map_nil, List.sum_cons, List.sum_nil]
    norm_num
    ring_nf
  · intro data hlen i hi
    interval_cases i <;>
      norm_num [reduceBucket, hlen, sumRange, List.range']

set_option maxRecDepth 8000 in
/-- Witness for C3: both concrete scenarios evaluated on explicit snapshots. -/
theorem C3_bar_binner_witness :
    reduceBucket (List.replicate 256 (2 : ℚ)) 64 3 = 2
    ∧ reduceBucket (List.replicate 8 (3 : ℚ)) 16 5 = 3 := by
  constructor
  · have h := C3_bar_binner.2.1 (List.replicate 256 (2 : ℚ)) rfl 3 (by norm_num)
    rw [h]
    norm_num [show (List.replicate 256 (2 : ℚ)).getD 12 0 = 2 from rfl,
      show (List.replicate 256 (2 : ℚ)).getD 13 0 = 2 from rfl,
      show (List.replicate 256 (2 : ℚ)).getD 14 0 = 2 from rfl,
      show (List.replicate 256 (2 : ℚ)).getD 15 0 = 2 from rfl]
  · have h := C3_bar_binner.2.2 (List.replicate 8 (3 : ℚ)) rfl 5 (by norm_num)
    rw [h]
    norm_num [show (List.replicate 8 (3 : ℚ)).getD 2 0 = 3 from rfl]

/-! ## AudioController analyser configuration (C5) -/

/-- The analyser-related state of `AudioController`: the stored `_fftSize`
and the lengths of the two snapshot buffers
(`frequencyData : Uint8Array(frequencyBinCount)` with
`frequencyBinCount = fftSize / 2`, and `timeDomainData : Uint8Array(fftSize)`). -/
structure AnalyserState where
  fftSize : ℕ
  frequencyDataLen : ℕ
  timeDomainDataLen : ℕ
deriving DecidableEq

/-- Embeds `AudioController.setFFTSize`: rejects (warn and return, no state change)
when `size < 32 || size > 32768 || (size & (size - 1)) !== 0`; otherwise
stores the new size and resizes both data arrays. -/
def setFFTSize (st : AnalyserState) (size : ℕ) : AnalyserState :=
  if size < 32 ∨ size > 32768 ∨ size &&& (size - 1) ≠ 0 then st
  else { fftSize := size, frequencyDataLen := size / 2, timeDomainDataLen := size }

lemma pow2_land_pred (k : ℕ) : 2 ^ k &&& (2 ^ k - 1) = 0 := by
  apply Nat.eq_of_testBit_eq
  intro i
  rw [Nat.testBit_and, Nat.testBit_two_pow, Nat.testBit_two_pow_sub_one, Nat.zero_testBit]
  by_cases h : k = i
  · subst h
    simp
  · simp [h]

lemma land_two_mul_pred (m : ℕ) (hm : 0 < m) :
    (2 * m) &&& (2 * m - 1) = 2 * (m &&& (m - 1)) := by
  apply Nat.eq_of_testBit_eq
  intro i
  cases i with
  | zero =>
    rw [Nat.testBit_and, Nat.testBit_zero, Nat.testBit_zero, Nat.testBit_zero]
    have h1 : 2 * m % 2 = 0 := by omega
    have h2 : 2 * (m &&& (m - 1)) % 2 = 0 := by omega
    simp [h1, h2]
  | succ i =>
    rw [Nat.testBit_and, Nat.testBit_add_one, Nat.testBit_add_one, Nat.testBit_add_one]
    have h1 : 2 * m / 2 = m := by omega
    have h2 : (2 * m - 1) / 2 = m - 1 := by omega
    have h3 : 2 * (m &&& (m - 1)) / 2 = m &&& (m - 1) := by omega
    rw [h1, h2, h3, ← Nat.testBit_and]

lemma land_odd_pred (m : ℕ) : (2 * m + 1) &&& (2 * m) = 2 * m := by
  apply Nat.eq_of_testBit_eq
  intro i
  cases i with
  | zero =>
    rw [Nat.testBit_and]
    have h1 : (2 * m + 1) % 2 = 1 := by omega
    have h2 : 2 * m % 2 = 0 := by omega
    simp [Nat.testBit_zero, h1, h2]
  | succ i =>
    rw [Nat.testBit_and, Nat.testBit_add_one, Nat.testBit_add_one]
    have h1 : (2 * m + 1) / 2 = m := by omega
    have h2 : 2 * m / 2 = m := by omega
    rw [h1, h2, Bool.and_self]

lemma exists_pow2_of_land_pred : ∀ n, 0 < n → n &&& (n - 1) = 0 → ∃ k, n = 2 ^ k := by
  intro n
  induction n using Nat.strong_induction_on with
  | _ n ih =>
    intro hn h
    rcases Nat.even_or_odd n with he | ho
    · obtain ⟨m, hm⟩ := he
      have hn2 : n = 2 * m := by omega
      have hmpos : 0 < m := by omega
      rw [hn2, land_two_mul_pred m hmpos] at h
      have hz : m &&& (m - 1) = 0 := by omega
      obtain ⟨k, hk⟩ := ih m (by omega) hmpos hz
      exact ⟨k + 1, by rw [hn2, hk]; ring⟩
    · obtain ⟨m, hm⟩ := ho
      rcases Nat.eq_zero_or_pos m with hm0 | hmpos
      · exact ⟨0, by omega⟩
      · exfalso
        rw [hm, show 2 * m + 1 - 1 = 2 * m by omega, land_odd_pred] at h
        omega

/-- The code's guard accepts exactly the powers of two in `[32, 32768]`. -/
lemma fft_valid_iff (size : ℕ) :
    (¬ (size < 32 ∨ size > 32768 ∨ size &&& (size - 1) ≠ 0))
      ↔ ∃ k, size = 2 ^ k ∧ 32 ≤ size ∧ size ≤ 32768 := by
  constructor
  · intro h
    push_neg at h
    obtain ⟨h32, h328, hland⟩ := h
    obtain ⟨k, hk⟩ := exists_pow2_of_land_pred size (by omega) hland
    exact ⟨k, hk, h32, h328⟩
  · rintro ⟨k, rfl, h32, h328⟩
    push_neg
    exact ⟨h32, h328, pow2_land_pred k⟩

/-- C5: `setFFTSize` accepts exactly the powers of two in `[32, 32768]`: for
those the stored resolution becomes `size`, the frequency snapshot buffer
length becomes `size / 2` and the time-domain buffer length becomes `size`;
every other value leaves the whole state unchanged (only a warning is logged,
nothing throws). -/
theorem C5_setFFTSize (st : AnalyserState) (size : ℕ) :
    ((∃ k, size = 2 ^ k ∧ 32 ≤ size ∧ size ≤ 32768) →
      setFFTSize st size =
        { fftSize := size, frequencyDataLen := size / 2, timeDomainDataLen := size })
    ∧ ((¬ ∃ k, size = 2 ^ k ∧ 32 ≤ size ∧ size ≤ 32768) → setFFTSize st size = st) := by
  constructor
  · intro hval
    rw [setFFTSize, if_neg ((fft_valid_iff size).mpr hval)]
  · intro hinval
    rcases Decidable.em (size < 32 ∨ size > 32768 ∨ size &&& (size - 1) ≠ 0) with hc | hc
    · rw [setFFTSize, if_pos hc]
    · exact absurd ((fft_valid_iff size).mp hc) hinval

/-- Witness for C5: `1024 = 2^10` is accepted (frequency buffer 512,
time-domain buffer 1024); `100` is rejected and the state is untouched. -/
theorem C5_setFFTSize_witness :
    setFFTSize ⟨512, 256, 512⟩ 1024 = ⟨1024, 512, 1024⟩
    ∧ setFFTSize ⟨512, 256, 512⟩ 100 = ⟨512, 256, 512⟩ := by
  constructor
  · exact (C5_setFFTSize ⟨512, 256, 512⟩ 1024).1 ⟨10, by norm_num, by norm_num, by norm_num⟩
  · refine (C5_setFFTSize ⟨512, 256, 512⟩ 100).2 ?_
    rintro ⟨k, hk, -, -⟩
    rcases Nat.lt_or_ge k 7 with hlt | hge
    · interval_cases k <;> omega
    · have h7 : 2 ^ 7 ≤ 2 ^ k := Nat.pow_le_pow_right (by norm_num) hge
      omega

/-! ## AudioController playback transport (C7, C10) -/

/-- The source tag `currentSourceType : 'microphone' | 'file' | 'none'`. -/
inductive SourceType
  | microphone
  | file
  | noSource
deriving DecidableEq

/-- The observable state of the `HTMLAudioElement` used for file playback. -/
structure AudioElement where
  currentTime : ℚ
  duration : ℚ
  paused : Bool
deriving DecidableEq

/-- The transport-related state of `AudioController`. -/
structure AudioControllerState where
  audioElement : Option AudioElement
  currentSourceType : SourceType
deriving DecidableEq

/-- Modelled from the spec: the playback transport (the HTML media element) is
an external capability, not part of the repository's sources.  Per §7(3)
("seek beyond duration: clamp silently rather than fail"), assigning
`audioElement.currentTime = time` clamps the target into `[0, duration]` and
never throws. -/
def mediaSetCurrentTime (el : AudioElement) (t : ℚ) : AudioElement :=
  { el with currentTime := min (max t 0) el.duration }

/-- Embeds `AudioController.seek`: guarded by `audioElement && currentSourceType ===
'file'`; assigns `audioElement.currentTime = time`. -/
def seek (st : AudioControllerState) (time : ℚ) : AudioControllerState :=
  match st.audioElement with
  | some el =>
    if st.currentSourceType = SourceType.file then
      { st with audioElement := some (mediaSetCurrentTime el time) }
    else st
  | none => st

/-- Embeds `AudioController.play`: same guard; starts element playback. -/
def play (st : AudioControllerState) : AudioControllerState :=
  match st.audioElement with
  | some el =>
    if st.currentSourceType = SourceType.file then
      { st with audioElement := some { el with paused := false } }
    else st
  | none => st

/-- Embeds `AudioController.pause`: same guard; pauses element playback. -/
def pause (st : AudioControllerState) : AudioControllerState :=
  match st.audioElement with
  | some el =>
    if st.currentSourceType = SourceType.file then
      { st with audioElement := some { el with paused := true } }
    else st
  | none => st

/-- Embeds `AudioController.isPlaying`: `audioElement ? !audioElement.paused : false`. -/
def isPlaying (st : AudioControllerState) : Bool :=
  match st.audioElement with
  | some el => !el.paused
  | none => false

/-- Embeds `AudioController.getCurrentTime`: `audioElement ? currentTime : 0`. -/
def getCurrentTime (st : AudioControllerState) : ℚ :=
  match st.audioElement with
  | some el => el.currentTime
  | none => 0

/-- Embeds `AudioController.getDuration`: `audioElement ? duration : 0`. -/
def getDuration (st : AudioControllerState) : ℚ :=
  match st.audioElement with
  | some el => el.duration
  | none => 0

/-- C7: with a file source loaded, seeking to any target time — including far
beyond the duration — results in a playback position silently clamped into
`[0, duration]`; the operation is a total function (nothing throws). -/
theorem C7_seek_clamped (st : AudioControllerState) (el : AudioElement) (t : ℚ)
    (h1 : st.audioElement = some el) (h2 : st.currentSourceType = SourceType.file)
    (hd : 0 ≤ el.duration) :
    (seek st t).audioElement = some (mediaSetCurrentTime el t)
    ∧ (mediaSetCurrentTime el t).currentTime = min (max t 0) el.duration
    ∧ 0 ≤ (mediaSetCurrentTime el t).currentTime
    ∧ (mediaSetCurrentTime el t).currentTime ≤ el.duration := by
  refine ⟨?_, rfl, ?_, ?_⟩
  · simp [seek, h1, h2]
  · exact le_min (le_max_right t 0) hd
  · exact min_le_right _ _

/-- Witness for C7: seeking to `t = 500` on a 120-second track lands exactly
at `currentTime = 120`. -/
theorem C7_seek_clamped_witness :
    (seek ⟨some ⟨0, 120, true⟩, SourceType.file⟩ 500).audioElement
      = some ⟨120, 120, true⟩ := by
  have h := C7_seek_clamped ⟨some ⟨0, 120, true⟩, SourceType.file⟩ ⟨0, 120, true⟩ 500
    rfl rfl (by norm_num)
  rw [h.1]
  simp only [mediaSetCurrentTime]
  norm_num [min_def, max_def]

/-- State with an audio element still holding a 120-second file, but with the
microphone selected as the current source (reachable: load a file, then switch
to the microphone — `disconnectAllSources` pauses and rewinds the element but
keeps its media). -/
def stMic : AudioControllerState :=
  { audioElement := some ⟨0, 120, true⟩, currentSourceType := SourceType.microphone }

/-- State before any audio element is created. -/
def stEmpty : AudioControllerState :=
  { audioElement := none, currentSourceType := SourceType.noSource }

/-- C10 (amended): when no audio element exists, the getters return `0`/`0`/
`false` and `play`, `pause`, `seek` leave the state unchanged; whenever the
current source is not a file, the three mutators are also inert and total;
but when an element exists its getters report the element's state — in
particular `getDuration` returns the previously loaded file's duration, not 0,
under a microphone source. -/
theorem C10_transport_inert (st : AudioControllerState) (t : ℚ) :
    (st.audioElement = none →
      getCurrentTime st = 0 ∧ getDuration st = 0 ∧ isPlaying st = false
        ∧ play st = st ∧ pause st = st ∧ seek st t = st)
    ∧ (st.currentSourceType ≠ SourceType.file →
        play st = st ∧ pause st = st ∧ seek st t = st)
    ∧ (∀ el, st.audioElement = some el →
        getCurrentTime st = el.currentTime ∧ getDuration st = el.duration
          ∧ isPlaying st = !el.paused) := by
  refine ⟨?_, ?_, ?_⟩
  · intro h
    simp [getCurrentTime, getDuration, isPlaying, play, pause, seek, h]
  · intro h
    cases hel : st.audioElement with
    | none => simp [play, pause, seek, hel]
    | some el => simp [play, pause, seek, hel, h]
  · intro el h
    simp [getCurrentTime, getDuration, isPlaying, h]

/-- Witness for C10: on the empty state the duration getter yields 0, and on
the microphone state `play` is inert. -/
theorem C10_transport_inert_witness :
    getDuration stEmpty = 0 ∧ play stMic = stMic :=
  ⟨((C10_transport_inert stEmpty 0).1 rfl).2.1,
   ((C10_transport_inert stMic 0).2.1 (by decide)).1⟩

/-- C10, counterexample: `stMic` has an audio element but its source is the
microphone, yet `getDuration` returns the stale file's 120, not 0 as claimed. -/
theorem C10_counterexample :
    stMic.currentSourceType ≠ SourceType.file
    ∧ getDuration stMic = 120 ∧ (120 : ℚ) ≠ 0 := by
  refine ⟨by decide, rfl, by norm_num⟩

/-! ## Pointer interaction: drag sessions (C8) and scrubbing (C6) -/

/-- The `visualizationMode` values reachable in the interaction file. -/
inductive VizMode
  | realtime
  | model3d
  | fourierView
deriving DecidableEq

/-- The interaction flags of the main entry file: `isDragging` and the orbit
controls' `enabled` flag, together with the current mode. -/
structure InteractionState where
  mode : VizMode
  isDragging : Bool
  controlsEnabled : Bool
deriving DecidableEq

/-- Embeds `onMouseDown`: returns immediately in `'realtime'` mode; otherwise, if the
pointer ray hits the waveform hit-area (or, failing that, the fourier
hit-area), starts a drag session and disables the orbit controls.  The
accompanying `handleScrubbing` call is modelled separately (C6). -/
def onMouseDown (st : InteractionState) (hitWaveform hitFourier : Bool) : InteractionState :=
  if st.mode = VizMode.realtime then st
  else if hitWaveform then { st with isDragging := true, controlsEnabled := false }
  else if hitFourier then { st with isDragging := true, controlsEnabled := false }
  else st

/-- Embeds `onMouseUp`: unconditionally ends the drag session and re-enables the
orbit controls. -/
def onMouseUp (st : InteractionState) : InteractionState :=
  { st with isDragging := false, controlsEnabled := true }

/-- C8 (amended): outside `'realtime'` mode, a pointer-down whose ray hits a
hit-surface starts a drag session and disables camera-orbit interaction; and
EVERY pointer-up — from any state, even without an intersection during the
drag — ends the session and re-enables camera interaction unconditionally.
(In `'realtime'` mode `onMouseDown` returns before raycasting, so an
intersecting pointer-down starts no drag there; see the counterexample.) -/
theorem C8_drag_session (st : InteractionState) (hW hF : Bool) :
    (st.mode ≠ VizMode.realtime → hW = true →
      (onMouseDown st hW hF).isDragging = true
        ∧ (onMouseDown st hW hF).controlsEnabled = false)
    ∧ (st.mode ≠ VizMode.realtime → hW = false → hF = true →
      (onMouseDown st hW hF).isDragging = true
        ∧ (onMouseDown st hW hF).controlsEnabled = false)
    ∧ ((onMouseUp st).isDragging = false ∧ (onMouseUp st).controlsEnabled = true) := by
  refine ⟨?_, ?_, by simp [onMouseUp]⟩
  · intro hm hw
    subst hw
    simp [onMouseDown, hm]
  · intro hm hw hf
    subst hw
    subst hf
    simp [onMouseDown, hm]

/-- Witness for C8: in `'3d-model'` mode an intersecting pointer-down sets the
drag flag, and a pointer-up during a drag re-enables the controls. -/
theorem C8_drag_session_witness :
    (onMouseDown ⟨VizMode.model3d, false, true⟩ true false).isDragging = true
    ∧ (onMouseUp ⟨VizMode.model3d, true, false⟩).controlsEnabled = true :=
  ⟨((C8_drag_session ⟨VizMode.model3d, false, true⟩ true false).1 (by decide) rfl).1,
   (C8_drag_session ⟨VizMode.model3d, true, false⟩ true false).2.2.2⟩

/-- C8, counterexample: in `'realtime'` mode a pointer-down whose ray DOES
intersect a hit-surface is ignored — no drag session starts. -/
theorem C8_counterexample :
    onMouseDown ⟨VizMode.realtime, false, true⟩ true false
        = ⟨VizMode.realtime, false, true⟩
    ∧ (onMouseDown ⟨VizMode.realtime, false, true⟩ true false).isDragging = false := by
  constructor <;> decide

/-- Combined state for the scrubbing flow: the waveform model plus the audio
controller it seeks on. -/
structure ScrubSystem where
  waveform : WaveformModel3D
  audio : AudioControllerState

/-- Embeds `seekAudio(progress)`: reads `waveformModel.getAudioInfo()`; when a track
is loaded, issues `audioController.seek(progress * duration)`. -/
def seekAudio (sys : ScrubSystem) (progress : ℚ) : ScrubSystem :=
  match sys.waveform.audioBuffer with
  | some buf => { sys with audio := seek sys.audio (progress * buf.duration) }
  | none => sys

/-- Embeds `handleScrubbing('waveform')`: returns untouched when the hit-area mesh
does not exist; otherwise raycasts against it (`hit` is the local-frame
intersection point, if any); with no intersection nothing happens; with one,
the clamped inverse mapping is applied and a seek is issued. -/
def handleScrubbing (sys : ScrubSystem) (hit : Option Point3) : ScrubSystem :=
  if sys.waveform.hitArea then
    match hit with
    | some pt => seekAudio sys (calculateProgressFromPoint sys.waveform pt)
    | none => sys
  else sys

/-- The spec's §4.4 inverse mapping, in its own words: `(x + length/2) / length`. -/
def specProgressFor (pt : Point3) (length : ℚ) : ℚ := (pt.x + length / 2) / length

/-- C6: a non-intersecting pointer ray (or a missing hit surface) produces no
progress value and leaves all playback state unchanged; an intersection
resolves to the §4.4 inverse mapping clamped to `[0, 1]`, with the exact left
edge of the hit surface mapping to 0 and the exact right edge to 1. -/
theorem C6_scrub_resolution :
    (∀ sys : ScrubSystem, handleScrubbing sys none = sys)
    ∧ (∀ (sys : ScrubSystem) (hit : Option Point3), sys.waveform.hitArea = false →
        handleScrubbing sys hit = sys)
    ∧ (∀ (st : WaveformModel3D) (pt : Point3),
        calculateProgressFromPoint st pt
          = min (max (specProgressFor pt (60 * st.spreadFactor)) 0) 1
        ∧ 0 ≤ calculateProgressFromPoint st pt ∧ calculateProgressFromPoint st pt ≤ 1)
    ∧ (∀ (st : WaveformModel3D) (pt : Point3), 0 < st.spreadFactor →
        (pt.x = -(60 * st.spreadFactor) / 2 → calculateProgressFromPoint st pt = 0)
        ∧ (pt.x = (60 * st.spreadFactor) / 2 → calculateProgressFromPoint st pt = 1)) := by
  refine ⟨?_, ?_, ?_, ?_⟩
  · intro sys
    by_cases h : sys.waveform.hitArea <;> simp [handleScrubbing, h]
  · intro sys hit h
    simp [handleScrubbing, h]
  · intro st pt
    refine ⟨rfl, ?_, ?_⟩
    · exact le_min (le_max_right _ _) zero_le_one
    · exact min_le_right _ _
  · intro st pt hs
    have hL : (60 : ℚ) * st.spreadFactor ≠ 0 := by positivity
    constructor
    · intro hx
      simp only [calculateProgressFromPoint]
      rw [hx, show -(60 * st.spreadFactor) / 2 + 60 * st.spreadFactor / 2 = 0 by ring,
        zero_div]
      norm_num
    · intro hx
      simp only [calculateProgressFromPoint]
      rw [hx, show 60 * st.spreadFactor / 2 + 60 * st.spreadFactor / 2
          = 60 * st.spreadFactor by ring, div_self hL]
      norm_num

/-- Witness for C6: on `st120` (spread 1) the left edge `x = -30` resolves to
progress 0, and scrubbing with no intersection leaves the system untouched. -/
theorem C6_scrub_resolution_witness :
    calculateProgressFromPoint st120 ⟨-30, 0, 0⟩ = 0
    ∧ handleScrubbing ⟨st120, stMic⟩ none = ⟨st120, stMic⟩ :=
  ⟨(C6_scrub_resolution.2.2.2 st120 ⟨-30, 0, 0⟩ (by norm_num [st120])).1
      (by norm_num [st120]),
   C6_scrub_resolution.1 ⟨st120, stMic⟩⟩

/-! ## Circular bar visualizer (C9) -/

/-- A visualizer bar mesh, identified by its position. -/
structure Bar where
  posX : ℚ
  posY : ℚ
  posZ : ℚ
deriving DecidableEq

/-- The `Visualizer` state: the live `meshes` array, plus the accumulated list
of meshes whose geometry and materials have been disposed (so that resource
release across rebuilds is observable). -/
structure VisualizerState where
  meshes : List Bar
  disposed : List Bar
deriving DecidableEq

/-- Embeds `Visualizer.clear`: disposes every mesh's geometry and material, removes
it from the group, and empties the `meshes` array. -/
def clearBars (st : VisualizerState) : VisualizerState :=
  { meshes := [], disposed := st.disposed ++ st.meshes }

/-- Embeds `Visualizer.createVisualizerBars(count, radius)`: clears the previous bars
first, then pushes `count` bars; bar `i` sits at
`(radius * cos θ, 0, radius * sin θ)` with `θ = (i / count) * 2π`.  The `Math`
trigonometry functions are an external capability: `c t` and `s t` stand for
`cos (2π t)` and `sin (2π t)`. -/
def createVisualizerBars (c s : ℚ → ℚ) (st : VisualizerState) (count : ℕ) (radius : ℚ) :
    VisualizerState :=
  let st' := clearBars st
  { st' with
      meshes := (List.range count).map (fun (i : ℕ) =>
        Bar.mk (radius * c ((i : ℚ) / (count : ℚ))) 0 (radius * s ((i : ℚ) / (count : ℚ)))) }

/-- C9: after `createVisualizerBars(count, radius)` the visualizer holds
exactly `count` bars, bar `i` at `x = radius·cos(2πi/count)`, `y = 0`,
`z = radius·sin(2πi/count)`; all meshes of the previous call are disposed
first, and repeated reconfiguration never accumulates bars. -/
theorem C9_visualizer_bars (c s : ℚ → ℚ) (st : VisualizerState) (count : ℕ) (radius : ℚ) :
    (createVisualizerBars c s st count radius).meshes.length = count
    ∧ (∀ i, i < count →
        (createVisualizerBars c s st count radius).meshes.getD i ⟨0, 0, 0⟩
          = ⟨radius * c ((i : ℚ) / (count : ℚ)), 0, radius * s ((i : ℚ) / (count : ℚ))⟩)
    ∧ (createVisualizerBars c s st count radius).disposed = st.disposed ++ st.meshes
    ∧ (∀ (count2 : ℕ) (radius2 : ℚ),
        (createVisualizerBars c s (createVisualizerBars c s st count radius)
            count2 radius2).meshes.length = count2) := by
  refine ⟨?_, ?_, rfl, ?_⟩
  · simp only [createVisualizerBars, List.length_map, List.length_range]
  · intro i hi
    simp only [createVisualizerBars]
    rw [List.getD_eq_getElem _ _
      (by simp only [List.length_map, List.length_range]; exact hi)]
    simp only [List.getElem_map, List.getElem_range]
  · intro count2 radius2
    simp only [createVisualizerBars, List.length_map, List.length_range]

/-- Witness for C9: four bars at radius 10 with the abstract trig functions
`c = 1`, `s = 0`; bar 2 sits at `(10, 0, 0)`. -/
theorem C9_visualizer_bars_witness :
    (createVisualizerBars (fun _ => 1) (fun _ => 0) ⟨[], []⟩ 4 10).meshes.getD 2 ⟨0, 0, 0⟩
      = ⟨10, 0, 0⟩ := by
  have h := (C9_visualizer_bars (fun _ => 1) (fun _ => 0) ⟨[], []⟩ 4 10).2.1 2 (by norm_num)
  rw [h]
  norm_num

end Spec3D
